import Mathlib

/-!
Shallow embedding of the search scraper (`src/services/scraper.js`) and proofs
about its specification.

The embedding models:
- the per-card field extraction of `parseProducts` (selector hits are fields of
  a `Card` record; chained `||` fallbacks become `jsOr`);
- `getLastNumericPageSpan` over an abstract pagination strip;
- the request handler `scraper`: keyword validation, `page`/`pages` clamping
  with JavaScript `parseInt`/`Math.max`/`Math.min` semantics (NaN is modelled
  as `none` of `Option ℤ`), the page-aggregation loop, and response assembly.

Network fetching is abstracted as a pure environment `env : Option ℤ →
Except FetchError Doc` mapping a requested page number (possibly NaN) to a
parsed document or a fetch error.  The list of issued fetches is returned
alongside the result as instrumentation so that temporal claims about the
loop can be stated.
-/

/-- A JavaScript number restricted to the values produced by `parseFloat` in
this program: either NaN or a (here: exactly represented) rational value. -/
inductive JsNumber where
  | nan : JsNumber
  | num : ℚ → JsNumber
deriving Repr, DecidableEq

/-- A JavaScript integer-valued number where `none` stands for NaN.  Used for
the results of `parseInt`, `Math.max`, `Math.min` and page arithmetic. -/
abbrev JsVal := Option ℤ

/-- The character class `\s` of JavaScript (used by `String.prototype.trim`
and the `\s+` parts of the rating regular expression). -/
def isJsWhitespace (c : Char) : Bool :=
  c = ' ' || c = '\t' || c = '\n' || c = '\r' || c = '\x0b' || c = '\x0c' ||
  c = ' ' || c = ' ' || (' ' ≤ c && c ≤ ' ') ||
  c = ' ' || c = ' ' || c = ' ' || c = ' ' ||
  c = '　' || c = '﻿'

/-- JavaScript `String.prototype.trim`: strip `\s` characters at both ends. -/
def jsTrim (s : String) : String :=
  String.mk (((s.toList.dropWhile isJsWhitespace).reverse.dropWhile
    isJsWhitespace).reverse)

/-- JavaScript `a || b` on string-or-missing values: `a` when it is a
non-empty string (truthy), otherwise `b`. -/
def jsOr (a b : Option String) : Option String :=
  match a with
  | some s => if s = "" then b else some s
  | none => b

/-- JavaScript `x || null` on a string-or-missing value: collapse the empty
string (falsy) to `none`. -/
def jsOrNull (a : Option String) : Option String :=
  jsOr a none

/-- JavaScript `x || d` where `d` is a string default (models
`req.query.page || "1"` and similar). -/
def jsOrDefault (a : Option String) (d : String) : String :=
  match jsOr a (some d) with
  | some s => s
  | none => d

/-- Numeric value of a list of decimal digit characters. -/
def natFromDigits (ds : List Char) : ℕ :=
  ds.foldl (fun a c => a * 10 + (c.toNat - '0'.toNat)) 0

/-- JavaScript `parseInt(s, 10)`: skip leading whitespace, optional sign,
then a maximal run of decimal digits; `none` (NaN) when no digit follows. -/
def parseIntJS (s : String) : JsVal :=
  let cs := s.toList.dropWhile isJsWhitespace
  match cs with
  | '+' :: rest =>
      let ds := rest.takeWhile Char.isDigit
      if ds.isEmpty then none else some (natFromDigits ds : ℤ)
  | '-' :: rest =>
      let ds := rest.takeWhile Char.isDigit
      if ds.isEmpty then none else some (-(natFromDigits ds : ℤ))
  | rest =>
      let ds := rest.takeWhile Char.isDigit
      if ds.isEmpty then none else some (natFromDigits ds : ℤ)

/-- JavaScript `Math.max(c, v)` with an integer constant: NaN propagates. -/
def jsMaxC (c : ℤ) (v : JsVal) : JsVal :=
  v.map (max c)

/-- JavaScript `Math.min(a, b)`: NaN propagates from either side. -/
def jsMinV (a b : JsVal) : JsVal :=
  match a, b with
  | some x, some y => some (min x y)
  | _, _ => none

/-- JavaScript addition of integer-valued numbers: NaN propagates. -/
def jsAdd (a b : JsVal) : JsVal :=
  match a, b with
  | some x, some y => some (x + y)
  | _, _ => none

/-- Characters matched by the `[\d.]` class of the rating pattern. -/
def isDigitDot (c : Char) : Bool :=
  c.isDigit || c = '.'

/-- Case-insensitive match of a literal pattern (the `/i` flag applied to
`out of`); returns the rest of the text on success. -/
def matchLiteralCI : List Char → List Char → Option (List Char)
  | [], rest => some rest
  | _ :: _, [] => none
  | p :: ps, c :: cs =>
      if p.toLower = c.toLower then matchLiteralCI ps cs else none

/-- Try to match `([\d.]+)\s+out of\s+5` (case-insensitive) at the head of
the text, returning the captured `[\d.]+` group.  The three character
classes involved are pairwise disjoint, so the greedy runs used here agree
with the backtracking regex engine. -/
def matchRatingAt (cs : List Char) : Option (List Char) :=
  let num := cs.takeWhile isDigitDot
  if num.isEmpty then none else
  let r1 := cs.dropWhile isDigitDot
  if (r1.takeWhile isJsWhitespace).isEmpty then none else
  let r2 := r1.dropWhile isJsWhitespace
  match matchLiteralCI "out of".toList r2 with
  | none => none
  | some r3 =>
    if (r3.takeWhile isJsWhitespace).isEmpty then none else
    match r3.dropWhile isJsWhitespace with
    | '5' :: _ => some num
    | _ => none

/-- First (leftmost) match of the rating pattern in the text: the capture
group of `ratingText.match(/([\d.]+)\s+out of\s+5/i)`. -/
def matchRating : List Char → Option (List Char)
  | [] => none
  | c :: cs =>
      match matchRatingAt (c :: cs) with
      | some g => some g
      | none => matchRating cs

/-- JavaScript `parseFloat` restricted to the strings this program passes to
it: non-empty strings over `[0-9.]`.  Digits, then an optional dot and more
digits; a token with no digit before or after the first dot is NaN. -/
def parseFloatDD (cs : List Char) : JsNumber :=
  let ip := cs.takeWhile Char.isDigit
  match cs.dropWhile Char.isDigit with
  | '.' :: r2 =>
      let fp := r2.takeWhile Char.isDigit
      if ip.isEmpty && fp.isEmpty then .nan
      else .num (Rat.divInt
        (natFromDigits ip * 10 ^ fp.length + natFromDigits fp) (10 ^ fp.length))
  | _ => if ip.isEmpty then .nan else .num (natFromDigits ip)

/-- One result-card container (`div.s-result-item.s-asin` under
`div.s-main-slot`).  Each field records the outcome of the corresponding
DOM query `parseProducts` performs on the card. -/
structure Card where
  /-- The `classList` of the container. -/
  classes : List String
  /-- The `data-asin` attribute (`none` when absent). -/
  dataAsin : Option String
  /-- whether `[aria-label='Sponsored'], .s-sponsored-label-text,
  [data-component-type='sp-sponsored-result']` matches inside the card. -/
  sponsoredMarker : Bool
  /-- The `textContent` of `h2 a span`, when that element exists. -/
  h2ASpanText : Option String
  /-- The `textContent` of `h2 span`, when that element exists. -/
  h2SpanText : Option String
  /-- The `textContent` of `i.a-icon-star-small span.a-icon-alt`. -/
  iconStarSmallAlt : Option String
  /-- The `textContent` of `i.a-icon-star span.a-icon-alt`. -/
  iconStarAlt : Option String
  /-- The `aria-label` of the first `[aria-label$='out of 5 stars']` element. -/
  ariaLabelOutOf5 : Option String
  /-- The `textContent` of `i[data-cy="reviews-ratings-slot"] .a-icon-alt`. -/
  reviewsSlotAlt : Option String
  /-- The `aria-label` of the first `span[aria-label$='ratings']` element. -/
  ariaRatings : Option String
  /-- The `aria-label` of the first `span[aria-label$='rating']` element. -/
  ariaRating : Option String
  /-- The `textContent` of `span.a-size-base.s-underline-text`. -/
  underlineText : Option String
  /-- The `src` and `data-src` attributes of `img.s-image`, when that element
  exists. -/
  sImage : Option (Option String × Option String)
  /-- The `href` attribute of `h2 a` (`none` when the element or attribute is
  absent). -/
  h2AHref : Option String
deriving Repr, DecidableEq

/-- One item of the pagination strip (`.s-pagination-item`). -/
structure PaginItem where
  classes : List String
  ariaLabel : Option String
  textContent : String
deriving Repr, DecidableEq

/-- Abstraction of one parsed search-results document: the result-card
containers, the two next-page signals, and the pagination strip items (of
whichever of the three strip container selectors matches first). -/
structure Doc where
  /-- elements matching `div.s-main-slot div.s-result-item.s-asin` (the
  attribute and `:not` parts of the card selector are applied in
  `parseProducts` below). -/
  resultItems : List Card
  /-- True iff `a.s-pagination-next:not(.s-pagination-disabled)` matches. -/
  nextEnabledLink : Bool
  /-- True iff `a[aria-label='Go to next page']` matches. -/
  goToNextLink : Bool
  /-- items of `.s-pagination-strip` / `nav[aria-label='Pagination']` /
  `#search .a-pagination`, `none` when no strip container matches. -/
  paginationStrip : Option (List PaginItem)
deriving Repr, DecidableEq

/-- One extracted product record, as returned by `parseProducts`. -/
structure Product where
  asin : Option String
  title : String
  rating : Option JsNumber
  reviews : Option ℕ
  image : Option String
  url : Option String
deriving Repr, DecidableEq

/-- Title fallback chain of `parseProducts`:
`h2 a span` text, else `h2 span` text, else null. -/
def titleOf (card : Card) : Option String :=
  jsOr (card.h2ASpanText.map jsTrim) (jsOr (card.h2SpanText.map jsTrim) none)

/-- Per-card sponsorship re-check of `parseProducts`: the container carries the
advertisement-holder class or a sponsored-label indicator. -/
def isSponsored (card : Card) : Bool :=
  card.classes.contains "AdHolder" || card.sponsoredMarker

/-- Field `asin`: `card.getAttribute("data-asin") || null`. -/
def asinOf (card : Card) : Option String :=
  jsOrNull card.dataAsin

/-- The `ratingText` fallback chain of `parseProducts`. -/
def ratingTextOf (card : Card) : Option String :=
  jsOr (card.iconStarSmallAlt.map jsTrim)
    (jsOr (card.iconStarAlt.map jsTrim)
      (jsOr card.ariaLabelOutOf5
        (jsOr (card.reviewsSlotAlt.map jsTrim) none)))

/-- Field `rating`: null unless the rating text matches
`/([\d.]+)\s+out of\s+5/i`, in which case the leading group is parsed. -/
def ratingOf (card : Card) : Option JsNumber :=
  match ratingTextOf card with
  | none => none
  | some t =>
      if t = "" then none else
      match matchRating t.toList with
      | none => none
      | some g => some (parseFloatDD g)

/-- Field `reviews`: strip non-digits from the candidate label and parse; null on
no candidate or an empty digit string. -/
def reviewsOf (card : Card) : Option ℕ :=
  match jsOr card.ariaRatings
      (jsOr card.ariaRating (jsOr (card.underlineText.map jsTrim) none)) with
  | none => none
  | some s =>
      let ds := s.toList.filter Char.isDigit
      if ds.isEmpty then none else some (natFromDigits ds)

/-- Field `image`: `src` of `img.s-image`, else its `data-src`, else null. -/
def imageOf (card : Card) : Option String :=
  jsOr (card.sImage.bind Prod.fst) (jsOr (card.sImage.bind Prod.snd) none)

/-- Field `url`: the canonical detail path from the asin when present, else the
card link `href` resolved against the base URL, else null.  `resolve` models
`new URL(href, SCRAPING_URI).href`. -/
def urlOf (resolve : String → String → String) (scrapingUri : String)
    (card : Card) : Option String :=
  match asinOf card with
  | some a => some (scrapingUri ++ "/dp/" ++ a)
  | none =>
      match jsOrNull card.h2AHref with
      | some h => some (resolve h scrapingUri)
      | none => none

/-- Per-card body of `parseProducts`'s `cards.map(...)`: `none` models the
`return null` cases (sponsored card, unresolvable title). -/
def extractCard (resolve : String → String → String) (scrapingUri : String)
    (card : Card) : Option Product :=
  if isSponsored card then none else
  match titleOf card with
  | none => none
  | some t =>
      some { asin := asinOf card, title := t, rating := ratingOf card,
             reviews := reviewsOf card, image := imageOf card,
             url := urlOf resolve scrapingUri card }

/-- The card selector's attribute and `:not` parts:
`[data-asin]:not([data-asin='']):not(.AdHolder)`. -/
def cardAdmitted (card : Card) : Bool :=
  (match card.dataAsin with
   | some s => decide (s ≠ "")
   | none => false) && !(card.classes.contains "AdHolder")

/-- The function `parseProducts`: select admitted cards, map the per-card extraction and
drop the `null` results (`filter(Boolean)`), and report whether a next-page
signal is present. -/
def parseProducts (resolve : String → String → String) (scrapingUri : String)
    (doc : Doc) : List Product × Bool :=
  let cards := doc.resultItems.filter cardAdmitted
  let products := cards.filterMap (extractCard resolve scrapingUri)
  (products, doc.nextEnabledLink || doc.goToNextLink)

/-- The function `getLastNumericPageSpan`: among strip items that are not
previous/next/ellipsis markers, read the last one's `aria-label` (else its
text), strip non-digits and parse; `none` when no strip, no item, or no
digit. -/
def getLastNumericPageSpan (doc : Doc) : Option ℤ :=
  match doc.paginationStrip with
  | none => none
  | some stripItems =>
      let items := stripItems.filter (fun el =>
        !(el.classes.contains "s-pagination-previous") &&
        !(el.classes.contains "s-pagination-next") &&
        !(el.classes.contains "s-pagination-ellipsis"))
      match items.getLast? with
      | none => none
      | some last =>
          let label :=
            match jsOr last.ariaLabel (jsOr (some last.textContent) none) with
            | some s => s
            | none => ""
          let ds := label.toList.filter Char.isDigit
          if ds.isEmpty then none else some (natFromDigits ds : ℤ)

/-- A failed page fetch (`fetchHtml` rejecting).  `message` is `err.message`;
`str` models `String(err)`, the fallback the handler uses when the message is
empty. -/
structure FetchError where
  message : String
  str : String
deriving Repr, DecidableEq

/-- The query parameters of the inbound request (`req.query.*`), each a
string when present. -/
structure Query where
  keyword : Option String
  page : Option String
  pages : Option String
deriving Repr, DecidableEq

/-- Startup configuration read from the environment: `SCRAPING_URI` and
`MAX_PAGES` (the latter as a JavaScript number, modelled integral; its
default is `3`). -/
structure Config where
  scrapingUri : String
  maxPages : JsVal
deriving Repr, DecidableEq

/-- The default configuration of the module. -/
def defaultConfig : Config :=
  { scrapingUri := "https://www.amazon.com/", maxPages := some 3 }

/-- Computes `Math.max(1, parseInt(req.query.page || "1", 10))`. -/
def clampedPage (q : Query) : JsVal :=
  jsMaxC 1 (parseIntJS (jsOrDefault q.page "1"))

/-- Computes `Math.max(1, Math.min(maxPages, parseInt(req.query.pages || "1", 10)))`. -/
def clampedPages (cfg : Config) (q : Query) : JsVal :=
  jsMaxC 1 (jsMinV cfg.maxPages (parseIntJS (jsOrDefault q.pages "1")))

/-- Number of times `i < pages` can hold for `i = 0, 1, ...`: zero when
`pages` is NaN, else `pages` (clamped below by zero). -/
def loopFuel (pages : JsVal) : ℕ :=
  match pages with
  | none => 0
  | some n => n.toNat

/-- State threaded through the aggregation loop.  `fetched` is
instrumentation recording, in order, the page numbers for which a fetch was
issued (it does not exist in the source; every other field is the
corresponding local of the handler). -/
structure LoopSt where
  output : List Product
  hasNext : Bool
  totalPages : Option ℤ
  fetched : List JsVal
deriving Repr, DecidableEq

/-- The `for (let i = 0; i < pages; i++)` aggregation loop.  Per iteration:
fetch `page + i`, parse, append the products, record `hasNext`, capture the
last numeric page while it is still null, and break when no next page
exists.  A fetch error ends the loop and is returned for the handler's
`catch`. -/
def runLoop (env : JsVal → Except FetchError Doc) (cfg : Config)
    (resolve : String → String → String) (page : JsVal) :
    ℕ → ℕ → LoopSt → LoopSt × Option FetchError
  | 0, _, st => (st, none)
  | fuel + 1, i, st =>
      let currentPage := jsAdd page (some (i : ℤ))
      match env currentPage with
      | .error e => ({ st with fetched := st.fetched ++ [currentPage] }, some e)
      | .ok doc =>
          let pr := parseProducts resolve cfg.scrapingUri doc
          let st' : LoopSt :=
            { output := st.output ++ pr.1
              hasNext := pr.2
              totalPages :=
                match st.totalPages with
                | none => getLastNumericPageSpan doc
                | some t => some t
              fetched := st.fetched ++ [currentPage] }
          if pr.2 then runLoop env cfg resolve page fuel (i + 1) st'
          else (st', none)

/-- The success payload (`res.json({...})`).  `nextPage`'s outer `none` is
JSON `null`; `JsVal`'s `none` is the JavaScript number NaN. -/
structure Summary where
  keyword : String
  page : JsVal
  pagesFetched : JsVal
  hasNext : Bool
  nextPage : Option JsVal
  count : ℕ
  products : List Product
  totalPages : JsVal
deriving Repr, DecidableEq

/-- Computes `Math.ceil(totalPages / pages)`: a null `totalPages` coerces to `0`;
a NaN `pages` gives NaN.  Division is modelled exactly over `ℚ`; the `p = 0`
branch is unreachable from `scraper` because `pages` is clamped to `≥ 1`. -/
def jsCeilDiv (t : Option ℤ) (pages : JsVal) : JsVal :=
  match pages with
  | none => none
  | some p => if p = 0 then none else some (Rat.divInt (t.getD 0) p).ceil

/-- Outcome of one request: HTTP 400 with an error message, HTTP 200 with a
summary, or HTTP 500 with an error message and details. -/
inductive ScraperResult where
  | badRequest (error : String)
  | ok (summary : Summary)
  | failure (error : String) (details : String)
deriving Repr, DecidableEq

/-- Post-validation part of the handler: clamp `page`/`pages`, run the
aggregation loop, and assemble either the summary or the catch-all error
response. -/
def scraperRun (env : JsVal → Except FetchError Doc) (cfg : Config)
    (resolve : String → String → String) (keyword : String) (q : Query) :
    ScraperResult × List JsVal :=
  let page := clampedPage q
  let pages := clampedPages cfg q
  let res := runLoop env cfg resolve page (loopFuel pages) 0
    { output := [], hasNext := false, totalPages := none, fetched := [] }
  match res with
  | (st, some e) =>
      (.failure ("Scraping of " ++ cfg.scrapingUri ++ " failed.")
        (if e.message = "" then e.str else e.message), st.fetched)
  | (st, none) =>
      (.ok
        { keyword := keyword
          page := page
          pagesFetched :=
            jsMinV pages (if st.output.length = 0 then some 0 else pages)
          hasNext := st.hasNext
          nextPage := if st.hasNext then some (jsAdd page pages) else none
          count := st.output.length
          products := st.output
          totalPages := jsCeilDiv st.totalPages pages }, st.fetched)

/-- The request handler `scraper`: trim the keyword, reject when empty
(before any fetch), otherwise run the aggregation.  The second component is
the instrumented list of issued fetches. -/
def scraper (env : JsVal → Except FetchError Doc) (cfg : Config)
    (resolve : String → String → String) (q : Query) :
    ScraperResult × List JsVal :=
  let keyword := jsTrim (q.keyword.getD "")
  if keyword = "" then (.badRequest "Missing ?keyword=", [])
  else scraperRun env cfg resolve keyword q

/-- Specification-side definition (for the corrected capture claims): the
last-numeric-page value of the first fetched page whose pagination strip
yields one, scanning the fetch log in order. -/
def firstFetchedSpan (env : JsVal → Except FetchError Doc) :
    List JsVal → Option ℤ
  | [] => none
  | v :: vs =>
      match env v with
      | .error _ => none
      | .ok d =>
          match getLastNumericPageSpan d with
          | some t => some t
          | none => firstFetchedSpan env vs

/-- Projection of the success summary out of a handler result. -/
def summaryOf : ScraperResult → Option Summary
  | .ok s => some s
  | _ => none

lemma jsOr_eq_some {a b : Option String} {s : String} (h : jsOr a b = some s) :
    (a = some s ∧ s ≠ "") ∨ b = some s := by
  cases a with
  | none => exact Or.inr h
  | some t =>
      simp only [jsOr] at h
      by_cases ht : t = ""
      · rw [if_pos ht] at h
        exact Or.inr h
      · rw [if_neg ht] at h
        injection h with h
        subst h
        exact Or.inl ⟨rfl, ht⟩

lemma titleOf_some_ne_empty {c : Card} {t : String} (h : titleOf c = some t) :
    t ≠ "" := by
  unfold titleOf at h
  rcases jsOr_eq_some h with ⟨_, hne⟩ | h2
  · exact hne
  · rcases jsOr_eq_some h2 with ⟨_, hne⟩ | h3
    · exact hne
    · simp at h3

lemma parseFloatDD_nonneg (cs : List Char) :
    parseFloatDD cs = .nan ∨
      ∃ x : ℚ, parseFloatDD cs = .num x ∧ 0 ≤ x := by
  unfold parseFloatDD
  split
  · dsimp only
    split_ifs with h
    · exact Or.inl rfl
    · refine Or.inr ⟨_, rfl, ?_⟩
      apply Rat.divInt_nonneg <;> positivity
  · dsimp only
    split_ifs with h
    · exact Or.inl rfl
    · exact Or.inr ⟨_, rfl, Nat.cast_nonneg _⟩

lemma cardAdmitted_spec {c : Card} (h : cardAdmitted c = true) :
    (∃ s, c.dataAsin = some s ∧ s ≠ "") ∧
      c.classes.contains "AdHolder" = false := by
  unfold cardAdmitted at h
  rw [Bool.and_eq_true] at h
  obtain ⟨h1, h2⟩ := h
  refine ⟨?_, by simpa using h2⟩
  cases hda : c.dataAsin with
  | none => rw [hda] at h1; exact absurd h1 (by simp)
  | some s =>
      rw [hda] at h1
      simp only [decide_eq_true_eq] at h1
      exact ⟨s, rfl, h1⟩

lemma extractCard_none_of_sponsored {r : String → String → String} {u : String}
    {c : Card}
    (h : c.classes.contains "AdHolder" = true ∨ c.sponsoredMarker = true) :
    extractCard r u c = none := by
  have hsp : isSponsored c = true := by
    unfold isSponsored
    rcases h with h | h <;> rw [h] <;> simp
  unfold extractCard
  rw [hsp]
  rfl

lemma extractCard_none_of_no_title {r : String → String → String} {u : String}
    {c : Card} (h : titleOf c = none) : extractCard r u c = none := by
  unfold extractCard
  cases hsp : isSponsored c
  · rw [h]
    rfl
  · rfl

lemma ratingOf_cases (c : Card) :
    ratingOf c = none ∨ ratingOf c = some JsNumber.nan ∨
      ∃ x : ℚ, ratingOf c = some (JsNumber.num x) ∧ 0 ≤ x := by
  unfold ratingOf
  cases hrt : ratingTextOf c with
  | none => exact Or.inl rfl
  | some t =>
      dsimp only
      split_ifs with ht0
      · exact Or.inl rfl
      · cases hm : matchRating t.toList with
        | none => exact Or.inl rfl
        | some g =>
            dsimp only
            rcases parseFloatDD_nonneg g with hn | ⟨x, hx, hx0⟩
            · rw [hn]
              exact Or.inr (Or.inl rfl)
            · rw [hx]
              exact Or.inr (Or.inr ⟨x, rfl, hx0⟩)

lemma extractCard_some_spec {r : String → String → String} {u : String}
    {c : Card} {p : Product} (h : extractCard r u c = some p) :
    c.classes.contains "AdHolder" = false ∧ c.sponsoredMarker = false ∧
    titleOf c = some p.title ∧ p.title ≠ "" ∧
    p.asin = asinOf c ∧ p.rating = ratingOf c ∧
    p.url = urlOf r u c := by
  unfold extractCard at h
  cases hsp : isSponsored c with
  | true => rw [hsp] at h; exact absurd h (by simp)
  | false =>
      rw [hsp] at h
      have hsp2 := hsp
      unfold isSponsored at hsp2
      rw [Bool.or_eq_false_iff] at hsp2
      cases ht : titleOf c with
      | none => rw [ht] at h; exact absurd h (by simp)
      | some t =>
          rw [ht] at h
          dsimp only at h
          injection h with h
          subst h
          refine ⟨hsp2.1, hsp2.2, ?_, ?_, ?_, ?_, ?_⟩ <;> dsimp only
          exact titleOf_some_ne_empty ht

lemma mem_parseProducts {r : String → String → String} {u : String} {doc : Doc}
    {p : Product} (h : p ∈ (parseProducts r u doc).1) :
    ∃ c ∈ doc.resultItems, cardAdmitted c = true ∧ extractCard r u c = some p := by
  unfold parseProducts at h
  dsimp only at h
  rw [List.mem_filterMap] at h
  obtain ⟨c, hc, hec⟩ := h
  rw [List.mem_filter] at hc
  exact ⟨c, hc.1, hc.2, hec⟩

lemma runLoop_succ_error {env : JsVal → Except FetchError Doc} {cfg : Config}
    {resolve : String → String → String} {page : JsVal} {n i : ℕ}
    {st : LoopSt} {e : FetchError}
    (henv : env (jsAdd page (some (i : ℤ))) = .error e) :
    runLoop env cfg resolve page (n + 1) i st =
      ({ st with fetched := st.fetched ++ [jsAdd page (some (i : ℤ))] },
        some e) := by
  simp [runLoop, henv]

lemma runLoop_succ_ok_false {env : JsVal → Except FetchError Doc}
    {cfg : Config} {resolve : String → String → String} {page : JsVal}
    {n i : ℕ} {st : LoopSt} {doc : Doc}
    (henv : env (jsAdd page (some (i : ℤ))) = .ok doc)
    (hnx : (parseProducts resolve cfg.scrapingUri doc).2 = false) :
    runLoop env cfg resolve page (n + 1) i st =
      ({ output := st.output ++ (parseProducts resolve cfg.scrapingUri doc).1
         hasNext := false
         totalPages :=
           match st.totalPages with
           | none => getLastNumericPageSpan doc
           | some t => some t
         fetched := st.fetched ++ [jsAdd page (some (i : ℤ))] }, none) := by
  simp [runLoop, henv, hnx]

lemma runLoop_succ_ok_true {env : JsVal → Except FetchError Doc}
    {cfg : Config} {resolve : String → String → String} {page : JsVal}
    {n i : ℕ} {st : LoopSt} {doc : Doc}
    (henv : env (jsAdd page (some (i : ℤ))) = .ok doc)
    (hnx : (parseProducts resolve cfg.scrapingUri doc).2 = true) :
    runLoop env cfg resolve page (n + 1) i st =
      runLoop env cfg resolve page n (i + 1)
        { output := st.output ++ (parseProducts resolve cfg.scrapingUri doc).1
          hasNext := true
          totalPages :=
            match st.totalPages with
            | none => getLastNumericPageSpan doc
            | some t => some t
          fetched := st.fetched ++ [jsAdd page (some (i : ℤ))] } := by
  simp [runLoop, henv, hnx]

lemma runLoop_spec (env : JsVal → Except FetchError Doc) (cfg : Config)
    (resolve : String → String → String) (page : JsVal) :
    ∀ (fuel i : ℕ) (st : LoopSt), ∃ ext : List JsVal,
      ((runLoop env cfg resolve page fuel i st).1).fetched =
        st.fetched ++ ext ∧
      ext.length ≤ fuel ∧
      (fuel ≠ 0 → ext.head? = some (jsAdd page (some (i : ℤ)))) ∧
      ((runLoop env cfg resolve page fuel i st).1).totalPages =
        (match st.totalPages with
         | some t => some t
         | none => firstFetchedSpan env ext) := by
  intro fuel
  induction fuel with
  | zero =>
      intro i st
      refine ⟨[], by simp [runLoop], by simp, by simp, ?_⟩
      cases h : st.totalPages <;> simp [runLoop, firstFetchedSpan, h]
  | succ n ih =>
      intro i st
      cases henv : env (jsAdd page (some (i : ℤ))) with
      | error e =>
          refine ⟨[jsAdd page (some (i : ℤ))], ?_, ?_, ?_, ?_⟩
          · rw [runLoop_succ_error henv]
          · simp
          · intro
            rfl
          · rw [runLoop_succ_error henv]
            cases h : st.totalPages <;>
              simp [firstFetchedSpan, henv, h]
      | ok doc =>
          cases hnx : (parseProducts resolve cfg.scrapingUri doc).2 with
          | false =>
              refine ⟨[jsAdd page (some (i : ℤ))], ?_, ?_, ?_, ?_⟩
              · rw [runLoop_succ_ok_false henv hnx]
              · simp
              · intro
                rfl
              · rw [runLoop_succ_ok_false henv hnx]
                cases h : st.totalPages with
                | some t => simp
                | none =>
                    dsimp only
                    cases hsp : getLastNumericPageSpan doc <;>
                      simp [firstFetchedSpan, henv, hsp]
          | true =>
              obtain ⟨ext2, hfe, hlen, _, htp⟩ := ih (i + 1)
                { output := st.output ++ (parseProducts resolve cfg.scrapingUri doc).1
                  hasNext := true
                  totalPages :=
                    match st.totalPages with
                    | none => getLastNumericPageSpan doc
                    | some t => some t
                  fetched := st.fetched ++ [jsAdd page (some (i : ℤ))] }
              refine ⟨jsAdd page (some (i : ℤ)) :: ext2, ?_, ?_, ?_, ?_⟩
              · rw [runLoop_succ_ok_true henv hnx, hfe]
                simp
              · simpa using Nat.succ_le_succ hlen
              · intro
                rfl
              · rw [runLoop_succ_ok_true henv hnx, htp]
                cases h : st.totalPages with
                | some t => simp
                | none =>
                    dsimp only
                    cases hsp : getLastNumericPageSpan doc <;>
                      simp [firstFetchedSpan, henv, hsp]

lemma mem_of_dropLast_concat {α : Type} {l : List α} {P : α → Prop}
    (h1 : ∀ v ∈ l.dropLast, P v) (h2 : ∀ pre v, l = pre ++ [v] → P v) :
    ∀ v ∈ l, P v := by
  intro v hv
  rcases List.eq_nil_or_concat l with rfl | ⟨l2, a, rfl⟩
  · simp at hv
  · rw [List.concat_eq_append] at h1 h2 hv
    rw [List.mem_append] at hv
    rcases hv with hv | hv
    · exact h1 v (by rw [List.dropLast_concat]; exact hv)
    · rw [List.mem_singleton] at hv
      subst hv
      exact h2 l2 v rfl

lemma runLoop_progress (env : JsVal → Except FetchError Doc) (cfg : Config)
    (resolve : String → String → String) (page : JsVal) :
    ∀ (fuel i : ℕ) (st : LoopSt),
      (∀ v ∈ st.fetched.dropLast, ∃ d, env v = .ok d ∧
          (parseProducts resolve cfg.scrapingUri d).2 = true) →
      (∀ pre v, st.fetched = pre ++ [v] → ∃ d, env v = .ok d ∧
          (parseProducts resolve cfg.scrapingUri d).2 = true) →
      ∀ w ∈ ((runLoop env cfg resolve page fuel i st).1).fetched.dropLast,
        ∃ d, env w = .ok d ∧ (parseProducts resolve cfg.scrapingUri d).2 = true := by
  intro fuel
  induction fuel with
  | zero =>
      intro i st h1 h2
      simpa [runLoop] using h1
  | succ n ih =>
      intro i st h1 h2
      cases henv : env (jsAdd page (some (i : ℤ))) with
      | error e =>
          rw [runLoop_succ_error henv]
          dsimp only
          rw [List.dropLast_concat]
          exact mem_of_dropLast_concat h1 h2
      | ok doc =>
          cases hnx : (parseProducts resolve cfg.scrapingUri doc).2 with
          | false =>
              rw [runLoop_succ_ok_false henv hnx]
              dsimp only
              rw [List.dropLast_concat]
              exact mem_of_dropLast_concat h1 h2
          | true =>
              rw [runLoop_succ_ok_true henv hnx]
              apply ih
              · dsimp only
                rw [List.dropLast_concat]
                exact mem_of_dropLast_concat h1 h2
              · dsimp only
                intro pre v hpv
                have hv : v = jsAdd page (some (i : ℤ)) := by
                  have h3 := congrArg List.getLast? hpv
                  rw [List.getLast?_concat, List.getLast?_concat] at h3
                  exact (Option.some.inj h3).symm
                subst hv
                exact ⟨doc, henv, hnx⟩

lemma runLoop_error (env : JsVal → Except FetchError Doc) (cfg : Config)
    (resolve : String → String → String) (page : JsVal) :
    ∀ (fuel i : ℕ) (st : LoopSt) (v : JsVal) (e : FetchError),
      v ∈ ((runLoop env cfg resolve page fuel i st).1).fetched →
      env v = .error e →
      (runLoop env cfg resolve page fuel i st).2 = some e ∨ v ∈ st.fetched := by
  intro fuel
  induction fuel with
  | zero =>
      intro i st v e hv _
      exact Or.inr (by simpa [runLoop] using hv)
  | succ n ih =>
      intro i st v e hv he
      cases henv : env (jsAdd page (some (i : ℤ))) with
      | error e2 =>
          rw [runLoop_succ_error henv] at hv ⊢
          dsimp only at hv ⊢
          rw [List.mem_append] at hv
          rcases hv with hv | hv
          · exact Or.inr hv
          · rw [List.mem_singleton] at hv
            subst hv
            rw [henv] at he
            injection he with he
            exact Or.inl (by rw [he])
      | ok doc =>
          cases hnx : (parseProducts resolve cfg.scrapingUri doc).2 with
          | false =>
              rw [runLoop_succ_ok_false henv hnx] at hv ⊢
              dsimp only at hv ⊢
              rw [List.mem_append] at hv
              rcases hv with hv | hv
              · exact Or.inr hv
              · rw [List.mem_singleton] at hv
                subst hv
                rw [henv] at he
                exact absurd he (by simp)
          | true =>
              rw [runLoop_succ_ok_true henv hnx] at hv ⊢
              rcases ih (i + 1) _ v e hv he with h | h
              · exact Or.inl h
              · dsimp only at h
                rw [List.mem_append] at h
                rcases h with h | h
                · exact Or.inr h
                · rw [List.mem_singleton] at h
                  subst h
                  rw [henv] at he
                  exact absurd he (by simp)

lemma clampedPage_pos {q : Query} {p : ℤ} (h : clampedPage q = some p) :
    1 ≤ p := by
  unfold clampedPage jsMaxC at h
  cases hv : parseIntJS (jsOrDefault q.page "1") with
  | none => rw [hv] at h; simp at h
  | some n =>
      rw [hv] at h
      simp only [Option.map_some'] at h
      injection h with h
      rw [← h]
      exact le_max_left 1 n

lemma clampedPages_pos {cfg : Config} {q : Query} {p : ℤ}
    (h : clampedPages cfg q = some p) : 1 ≤ p := by
  unfold clampedPages jsMaxC at h
  cases hv : jsMinV cfg.maxPages (parseIntJS (jsOrDefault q.pages "1")) with
  | none => rw [hv] at h; simp at h
  | some n =>
      rw [hv] at h
      simp only [Option.map_some'] at h
      injection h with h
      rw [← h]
      exact le_max_left 1 n

lemma scraper_eq_run {env : JsVal → Except FetchError Doc} {cfg : Config}
    {resolve : String → String → String} {q : Query}
    (hk : jsTrim (q.keyword.getD "") ≠ "") :
    scraper env cfg resolve q =
      scraperRun env cfg resolve (jsTrim (q.keyword.getD "")) q := by
  unfold scraper
  rw [if_neg hk]

lemma scraperRun_of_err {env : JsVal → Except FetchError Doc} {cfg : Config}
    {resolve : String → String → String} {k : String} {q : Query}
    {st : LoopSt} {e : FetchError}
    (h : runLoop env cfg resolve (clampedPage q) (loopFuel (clampedPages cfg q))
        0 { output := [], hasNext := false, totalPages := none, fetched := [] } =
      (st, some e)) :
    scraperRun env cfg resolve k q =
      (.failure ("Scraping of " ++ cfg.scrapingUri ++ " failed.")
        (if e.message = "" then e.str else e.message), st.fetched) := by
  unfold scraperRun
  dsimp only
  rw [h]

lemma scraperRun_of_ok {env : JsVal → Except FetchError Doc} {cfg : Config}
    {resolve : String → String → String} {k : String} {q : Query}
    {st : LoopSt}
    (h : runLoop env cfg resolve (clampedPage q) (loopFuel (clampedPages cfg q))
        0 { output := [], hasNext := false, totalPages := none, fetched := [] } =
      (st, none)) :
    scraperRun env cfg resolve k q =
      (.ok { keyword := k
             page := clampedPage q
             pagesFetched := jsMinV (clampedPages cfg q)
               (if st.output.length = 0 then some 0 else clampedPages cfg q)
             hasNext := st.hasNext
             nextPage := if st.hasNext then
               some (jsAdd (clampedPage q) (clampedPages cfg q)) else none
             count := st.output.length
             products := st.output
             totalPages := jsCeilDiv st.totalPages (clampedPages cfg q) },
        st.fetched) := by
  unfold scraperRun
  dsimp only
  rw [h]

lemma scraper_ok_spec {env : JsVal → Except FetchError Doc} {cfg : Config}
    {resolve : String → String → String} {q : Query} {s : Summary}
    {log : List JsVal} (h : scraper env cfg resolve q = (.ok s, log)) :
    ∃ st, runLoop env cfg resolve (clampedPage q)
        (loopFuel (clampedPages cfg q)) 0
        { output := [], hasNext := false, totalPages := none, fetched := [] } =
        (st, none) ∧
      log = st.fetched ∧
      s.totalPages = jsCeilDiv st.totalPages (clampedPages cfg q) ∧
      s.pagesFetched = jsMinV (clampedPages cfg q)
        (if st.output.length = 0 then some 0 else clampedPages cfg q) := by
  by_cases hk : jsTrim (q.keyword.getD "") = ""
  · unfold scraper at h
    dsimp only at h
    rw [if_pos hk] at h
    injection h with h1 h2
    injection h1
  · rw [scraper_eq_run hk] at h
    rcases hrl : runLoop env cfg resolve (clampedPage q)
        (loopFuel (clampedPages cfg q)) 0
        { output := [], hasNext := false, totalPages := none, fetched := [] }
      with ⟨st, err⟩
    cases err with
    | some e =>
        rw [scraperRun_of_err hrl] at h
        injection h with h1 h2
        injection h1
    | none =>
        rw [scraperRun_of_ok hrl] at h
        injection h with h1 h2
        injection h1 with h1
        refine ⟨st, rfl, h2.symm, ?_, ?_⟩ <;> rw [← h1]

lemma scraper_log {env : JsVal → Except FetchError Doc} {cfg : Config}
    {resolve : String → String → String} {q : Query} {res : ScraperResult}
    {log : List JsVal} (h : scraper env cfg resolve q = (res, log))
    (hk : jsTrim (q.keyword.getD "") ≠ "") :
    ∃ st err, runLoop env cfg resolve (clampedPage q)
        (loopFuel (clampedPages cfg q)) 0
        { output := [], hasNext := false, totalPages := none, fetched := [] } =
        (st, err) ∧
      log = st.fetched := by
  rw [scraper_eq_run hk] at h
  rcases hrl : runLoop env cfg resolve (clampedPage q)
      (loopFuel (clampedPages cfg q)) 0
      { output := [], hasNext := false, totalPages := none, fetched := [] }
    with ⟨st, err⟩
  cases err with
  | some e =>
      rw [scraperRun_of_err hrl] at h
      injection h with h1 h2
      exact ⟨st, some e, rfl, h2.symm⟩
  | none =>
      rw [scraperRun_of_ok hrl] at h
      injection h with h1 h2
      exact ⟨st, none, rfl, h2.symm⟩

lemma scraper_ok_totalPages {env : JsVal → Except FetchError Doc}
    {cfg : Config} {resolve : String → String → String} {q : Query}
    {s : Summary} {log : List JsVal}
    (h : scraper env cfg resolve q = (.ok s, log)) :
    s.totalPages = jsCeilDiv (firstFetchedSpan env log) (clampedPages cfg q) := by
  obtain ⟨st, hrl, hlog, htp, _⟩ := scraper_ok_spec h
  obtain ⟨ext, hfe, _, _, hsp⟩ := runLoop_spec env cfg resolve (clampedPage q)
    (loopFuel (clampedPages cfg q)) 0
    { output := [], hasNext := false, totalPages := none, fetched := [] }
  rw [hrl] at hfe hsp
  dsimp only at hfe hsp
  rw [List.nil_append] at hfe
  rw [htp, hsp, hlog, hfe]

lemma scraper_log_head {env : JsVal → Except FetchError Doc} {cfg : Config}
    {resolve : String → String → String} {q : Query} {res : ScraperResult}
    {log : List JsVal} {p : ℤ}
    (h : scraper env cfg resolve q = (res, log))
    (hk : jsTrim (q.keyword.getD "") ≠ "")
    (hp : clampedPages cfg q = some p) :
    ∃ rest, log = jsAdd (clampedPage q) (some 0) :: rest := by
  obtain ⟨st, err, hrl, hlog⟩ := scraper_log h hk
  obtain ⟨ext, hfe, _, hhead, _⟩ := runLoop_spec env cfg resolve
    (clampedPage q) (loopFuel (clampedPages cfg q)) 0
    { output := [], hasNext := false, totalPages := none, fetched := [] }
  rw [hrl] at hfe
  dsimp only at hfe
  rw [List.nil_append] at hfe
  have hfuel : loopFuel (clampedPages cfg q) ≠ 0 := by
    rw [hp]
    unfold loopFuel
    dsimp only
    have := clampedPages_pos hp
    omega
  have hh := hhead hfuel
  rw [hlog, hfe]
  cases ext with
  | nil => simp at hh
  | cons a rest =>
      rw [List.head?_cons] at hh
      injection hh with hh
      refine ⟨rest, ?_⟩
      rw [hh]
      norm_num

lemma scraper_of_empty_keyword {env : JsVal → Except FetchError Doc}
    {cfg : Config} {resolve : String → String → String} {q : Query}
    (hk : jsTrim (q.keyword.getD "") = "") :
    scraper env cfg resolve q = (.badRequest "Missing ?keyword=", []) := by
  unfold scraper
  dsimp only
  rw [if_pos hk]

lemma firstFetchedSpan_none {env : JsVal → Except FetchError Doc}
    (h : ∀ v d, env v = .ok d → getLastNumericPageSpan d = none) :
    ∀ l : List JsVal, firstFetchedSpan env l = none := by
  intro l
  induction l with
  | nil => rfl
  | cons v vs ih =>
      unfold firstFetchedSpan
      cases henv : env v with
      | error e => rfl
      | ok d =>
          dsimp only
          rw [h v d henv]
          exact ih

lemma filterMap_congr_mem {α β : Type} {f g : α → Option β} :
    ∀ {l : List α}, (∀ a ∈ l, f a = g a) → l.filterMap f = l.filterMap g := by
  intro l
  induction l with
  | nil => intro _; rfl
  | cons a l ih =>
      intro h
      rw [List.filterMap_cons, List.filterMap_cons, h a (by simp),
        ih (fun b hb => h b (by simp [hb]))]

lemma extractCard_resolve_indep {r1 r2 : String → String → String}
    {u : String} {c : Card} (hadm : cardAdmitted c = true) :
    extractCard r1 u c = extractCard r2 u c := by
  obtain ⟨⟨a, hda, ha⟩, _⟩ := cardAdmitted_spec hadm
  have hassome : asinOf c = some a := by
    unfold asinOf jsOrNull jsOr
    rw [hda]
    dsimp only
    rw [if_neg ha]
  unfold extractCard urlOf
  rw [hassome]

lemma ratCeil_eq (q : ℚ) : q.ceil = ⌈q⌉ := by
  unfold Rat.ceil
  split_ifs with h
  · conv_rhs => rw [← Rat.coe_int_num_of_den_eq_one h]
    rw [Int.ceil_intCast]
  · have hfl : q.num / (q.den : ℤ) = ⌊q⌋ := Rat.floor_def.symm
    rw [hfl]
    have hq : (⌊q⌋ : ℚ) ≠ q := by
      intro he
      exact h (by rw [← he]; exact Rat.den_intCast _)
    have h1 : ⌈q⌉ ≤ ⌊q⌋ + 1 := by
      apply Int.ceil_le.mpr
      push_cast
      exact (Int.lt_floor_add_one q).le
    have h2 : ⌊q⌋ + 1 ≤ ⌈q⌉ := by
      have hlt : (⌊q⌋ : ℚ) < q := lt_of_le_of_ne (Int.floor_le q) hq
      have hlt2 : (⌊q⌋ : ℚ) < (⌈q⌉ : ℚ) := lt_of_lt_of_le hlt (Int.le_ceil q)
      have hlt3 : ⌊q⌋ < ⌈q⌉ := by exact_mod_cast hlt2
      omega
    omega

lemma ceil_divInt_eq (t p : ℤ) :
    (Rat.divInt t p).ceil = ⌈(t : ℚ) / (p : ℚ)⌉ := by
  rw [ratCeil_eq, Rat.divInt_eq_div]

/-! Concrete fixtures used by the evaluation, counterexample and witness
theorems below. -/

/-- A concrete URL resolver (the embedding never relies on its behaviour). -/
def resolveDefault : String → String → String := fun href base => base ++ href

/-- A second resolver, used to exhibit resolver-independence. -/
def resolveAlt : String → String → String := fun href _ => href

/-- An ordinary non-sponsored result card with a title and an asin. -/
def prodCard : Card :=
  ⟨[], some "B000000001", false, some "Widget", none, none, none, none, none,
   none, none, none, none, none⟩

/-- A card whose star icon reports more than five stars. -/
def card7 : Card :=
  ⟨[], some "B000000007", false, some "Gadget", none,
   some "9.9 out of 5 stars", none, none, none, none, none, none, none, none⟩

/-- A card tagged with the advertisement-holder class. -/
def adCard : Card :=
  ⟨["AdHolder"], some "B0000000AD", false, some "Ad", none, none, none, none,
   none, none, none, none, none, none⟩

/-- A card with an asin but no resolvable title. -/
def untitledCard : Card :=
  ⟨[], some "B0000000UT", false, none, none, none, none, none, none, none,
   none, none, none, none⟩

/-- The numeric pagination item `7`. -/
def item7 : PaginItem := ⟨[], none, "7"⟩

/-- One product, no next page, no pagination strip. -/
def docStop : Doc := ⟨[prodCard], false, false, none⟩

/-- No products, an enabled next-page link, no pagination strip. -/
def docNext : Doc := ⟨[], true, false, none⟩

/-- One card with an out-of-range star rating. -/
def doc7 : Doc := ⟨[card7], false, false, none⟩

/-- No products, no next page, a pagination strip ending at `7`. -/
def docStrip7 : Doc := ⟨[], false, false, some [item7]⟩

/-- Environment: every page is `docStop`. -/
def envStop : JsVal → Except FetchError Doc := fun _ => .ok docStop

/-- Environment: every page is `docNext`. -/
def envNext : JsVal → Except FetchError Doc := fun _ => .ok docNext

/-- Environment: every page is `docStrip7`. -/
def envStrip7 : JsVal → Except FetchError Doc := fun _ => .ok docStrip7

/-- Environment: page 1 has no strip but a next page; page 2 carries the
strip ending at `7`. -/
def env8 : JsVal → Except FetchError Doc :=
  fun v => if v = some 1 then .ok docNext else .ok docStrip7

/-- A fetch error fixture. -/
def fetchErr503 : FetchError := ⟨"HTTP 503", "Error: HTTP 503"⟩

/-- Environment: every fetch fails. -/
def envErr : JsVal → Except FetchError Doc := fun _ => .error fetchErr503

/-- Query `?keyword=x&pages=2`. -/
def qPages2 : Query := ⟨some "x", none, some "2"⟩

/-- Query `?keyword=x` (both page parameters defaulted). -/
def qOnePage : Query := ⟨some "x", none, none⟩

/-- Query `?keyword=x&pages=3`. -/
def qPages3 : Query := ⟨some "x", none, some "3"⟩

/-- Query `?keyword=x&page=abc&pages=2` (non-numeric page). -/
def qBadPage : Query := ⟨some "x", some "abc", some "2"⟩

/-- Query `?keyword=x&page=2&pages=5`. -/
def qW9 : Query := ⟨some "x", some "2", some "5"⟩

/-- The record extracted from `prodCard` under the default base URL. -/
def prodW : Product :=
  ⟨some "B000000001", "Widget", none, none, none,
   some "https://www.amazon.com//dp/B000000001"⟩

/-- The record extracted from `card7` under the default base URL. -/
def prod7 : Product :=
  ⟨some "B000000007", "Gadget", some (JsNumber.num (Rat.divInt 99 10)), none,
   none, some "https://www.amazon.com//dp/B000000007"⟩

/-- The summary of a `qOnePage` search against `envStop`. -/
def sB : Summary := ⟨"x", some 1, some 1, false, none, 1, [prodW], some 0⟩

/-- The summary of a `qPages2` search whose captured last numeric page is 7
and which stopped with no records. -/
def sStrip7 : Summary := ⟨"x", some 1, some 0, false, none, 0, [], some 4⟩

/-- C1: the claim says the summary's `pagesFetched` equals the number of
loop iterations actually executed (so, 1 when two pages are requested but
page 1 already has `hasNext` false).  The code instead computes
`Math.min(pages, output.length ? pages : 0)`: at this input exactly one
fetch is issued (the instrumented log has length 1) yet the summary reports
`pagesFetched = 2`, the clamped requested count. -/
theorem C1_pagesFetched_eval :
    (scraper envStop defaultConfig resolveDefault qPages2).2.length = 1 ∧
    (summaryOf (scraper envStop defaultConfig resolveDefault qPages2).1).map
      Summary.pagesFetched = some (some 2) := by
  exact ⟨rfl, rfl⟩

/-- C2 counterexample: against the default configuration, a one-page search
whose document has no pagination strip completes without error, but the
summary's `totalPages` is the number 0 (`Math.ceil(null / pages)` coerces
the null capture to 0), not null/undefined as the claim states. -/
theorem C2_counterexample :
    (summaryOf (scraper envStop defaultConfig resolveDefault qOnePage).1).map
      Summary.totalPages = some (some 0) := by
  exact rfl

/-- C2 (amended): for every search that completes successfully with the
requested page count clamped to `p`: (a) when the first fetched page's
document yields last numeric page `t`, the summary's `totalPages` is
`⌈t / p⌉`; and (b) when no successfully fetched document yields a
pagination value, the summary's `totalPages` is the number 0 (the null
capture coerces to 0 inside the division) rather than null/undefined — and
in neither case is an error raised. -/
theorem C2_totalPages :
    (∀ (env : JsVal → Except FetchError Doc) (cfg : Config)
        (resolve : String → String → String) (q : Query) (s : Summary)
        (log : List JsVal) (p n : ℤ) (d : Doc) (t : ℤ),
        scraper env cfg resolve q = (.ok s, log) →
        clampedPages cfg q = some p →
        clampedPage q = some n →
        env (some n) = .ok d →
        getLastNumericPageSpan d = some t →
        s.totalPages = some ⌈(t : ℚ) / (p : ℚ)⌉) ∧
    (∀ (env : JsVal → Except FetchError Doc) (cfg : Config)
        (resolve : String → String → String) (q : Query) (s : Summary)
        (log : List JsVal) (p : ℤ),
        scraper env cfg resolve q = (.ok s, log) →
        clampedPages cfg q = some p →
        (∀ v d, env v = .ok d → getLastNumericPageSpan d = none) →
        s.totalPages = some 0) := by
  constructor
  · intro env cfg resolve q s log p n d t h hp hn hd ht
    have hk : jsTrim (q.keyword.getD "") ≠ "" := by
      intro hk0
      rw [scraper_of_empty_keyword hk0] at h
      injection h with h1 h2
      injection h1
    obtain ⟨rest, hlog⟩ := scraper_log_head h hk hp
    have htot := scraper_ok_totalPages h
    rw [hlog, hn] at htot
    have hfirst : firstFetchedSpan env (jsAdd (some n) (some 0) :: rest) =
        some t := by
      unfold firstFetchedSpan
      have : jsAdd (some n) (some 0) = some n := by
        unfold jsAdd
        norm_num
      rw [this, hd]
      dsimp only
      rw [ht]
    rw [hfirst, hp] at htot
    rw [htot]
    unfold jsCeilDiv
    dsimp only
    have hp1 : 1 ≤ p := clampedPages_pos hp
    rw [if_neg (by omega), ceil_divInt_eq]
    rfl
  · intro env cfg resolve q s log p h hp hnone
    have htot := scraper_ok_totalPages h
    rw [firstFetchedSpan_none hnone, hp] at htot
    rw [htot]
    unfold jsCeilDiv
    dsimp only
    have hp1 : 1 ≤ p := clampedPages_pos hp
    rw [if_neg (by omega), ceil_divInt_eq]
    norm_num

/-- C2 witness: against `envStrip7` (first page reports last numeric page 7)
with pages=2 the summary's `totalPages` is `⌈7/2⌉`; against `envStop` (no
strip anywhere) it is the number 0. -/
theorem C2_witness :
    sStrip7.totalPages = some ⌈(7 : ℚ) / (2 : ℚ)⌉ ∧ sB.totalPages = some 0 :=
  ⟨C2_totalPages.1 envStrip7 defaultConfig resolveDefault qPages2 sStrip7
      [some 1] 2 1 docStrip7 7 (by decide) (by decide) (by decide) rfl rfl,
   C2_totalPages.2 envStop defaultConfig resolveDefault qOnePage sB
      [some 1] 1 (by decide) (by decide)
      (by intro v d hv; injection hv with hv; rw [← hv]; rfl)⟩

/-- C3: every record emitted by extraction has a non-empty title; a card
carrying the advertisement-holder class or a sponsored-label indicator is
never emitted; and a candidate whose title cannot be resolved is discarded
without affecting the extraction of the other candidates. -/
theorem C3_title_sponsored :
    (∀ (resolve : String → String → String) (u : String) (doc : Doc)
        (p : Product), p ∈ (parseProducts resolve u doc).1 → p.title ≠ "") ∧
    (∀ (resolve : String → String → String) (u : String) (c : Card),
        c.classes.contains "AdHolder" = true ∨ c.sponsoredMarker = true →
        extractCard resolve u c = none) ∧
    (∀ (resolve : String → String → String) (u : String) (c : Card)
        (pre post : List Card) (ne gn : Bool)
        (ps : Option (List PaginItem)),
        titleOf c = none →
        (parseProducts resolve u
            { resultItems := pre ++ c :: post, nextEnabledLink := ne,
              goToNextLink := gn, paginationStrip := ps }).1 =
          (parseProducts resolve u
            { resultItems := pre ++ post, nextEnabledLink := ne,
              goToNextLink := gn, paginationStrip := ps }).1) := by
  refine ⟨?_, ?_, ?_⟩
  · intro resolve u doc p h
    obtain ⟨c, _, _, hec⟩ := mem_parseProducts h
    exact (extractCard_some_spec hec).2.2.2.1
  · intro resolve u c h
    exact extractCard_none_of_sponsored h
  · intro resolve u c pre post ne gn ps h
    unfold parseProducts
    dsimp only
    rw [List.filter_append, List.filter_append, List.filter_cons]
    cases hadm : cardAdmitted c
    · simp
    · simp [List.filterMap_append, List.filterMap_cons,
        extractCard_none_of_no_title h]

/-- C3 witness: the concrete product has a non-empty title; the ad-holder
card extracts to nothing; removing the untitled card leaves the extraction
of the titled card unchanged. -/
theorem C3_witness :
    prodW.title ≠ "" ∧
    extractCard resolveDefault "https://www.amazon.com/" adCard = none ∧
    (parseProducts resolveDefault "https://www.amazon.com/"
        { resultItems := [prodCard] ++ untitledCard :: [],
          nextEnabledLink := false, goToNextLink := false,
          paginationStrip := none }).1 =
      (parseProducts resolveDefault "https://www.amazon.com/"
        { resultItems := [prodCard] ++ [], nextEnabledLink := false,
          goToNextLink := false, paginationStrip := none }).1 :=
  ⟨C3_title_sponsored.1 resolveDefault "https://www.amazon.com/" docStop prodW
      (by decide),
   C3_title_sponsored.2.1 resolveDefault "https://www.amazon.com/" adCard
      (Or.inl (by decide)),
   C3_title_sponsored.2.2 resolveDefault "https://www.amazon.com/"
      untitledCard [prodCard] [] false false none (by decide)⟩

/-- C4: the aggregation loop stops as soon as a fetched page reports
`hasNext` false: in every run, at most `loopFuel` fetches are issued, and
every issued fetch except possibly the final one was of a page that parsed
successfully with `hasNext` true — no fetch is ever issued beyond the first
page whose `hasNext` is false. -/
theorem C4_early_stop (env : JsVal → Except FetchError Doc) (cfg : Config)
    (resolve : String → String → String) (q : Query) (res : ScraperResult)
    (log : List JsVal) (h : scraper env cfg resolve q = (res, log)) :
    log.length ≤ loopFuel (clampedPages cfg q) ∧
    ∀ v ∈ log.dropLast, ∃ d, env v = .ok d ∧
      (parseProducts resolve cfg.scrapingUri d).2 = true := by
  by_cases hk : jsTrim (q.keyword.getD "") = ""
  · rw [scraper_of_empty_keyword hk] at h
    injection h with h1 h2
    rw [← h2]
    exact ⟨by simp, by simp⟩
  · obtain ⟨st, err, hrl, hlog⟩ := scraper_log h hk
    constructor
    · obtain ⟨ext, hfe, hlen, _, _⟩ := runLoop_spec env cfg resolve
        (clampedPage q) (loopFuel (clampedPages cfg q)) 0
        { output := [], hasNext := false, totalPages := none, fetched := [] }
      rw [hrl] at hfe
      dsimp only at hfe
      rw [List.nil_append] at hfe
      rw [hlog, hfe]
      exact hlen
    · rw [hlog]
      have hpr := runLoop_progress env cfg resolve (clampedPage q)
        (loopFuel (clampedPages cfg q)) 0
        { output := [], hasNext := false, totalPages := none, fetched := [] }
        (by simp) (by intro pre v hpv; simp at hpv)
      rw [hrl] at hpr
      dsimp only at hpr
      exact hpr

/-- C4 witness: a three-page run against always-next documents issues
exactly the allowed number of fetches, and every non-final fetched page had
`hasNext` true. -/
theorem C4_witness :
    (scraper envNext defaultConfig resolveDefault qPages3).2.length ≤
      loopFuel (clampedPages defaultConfig qPages3) ∧
    ∀ v ∈ (scraper envNext defaultConfig resolveDefault qPages3).2.dropLast,
      ∃ d, envNext v = .ok d ∧
        (parseProducts resolveDefault defaultConfig.scrapingUri d).2 = true :=
  C4_early_stop envNext defaultConfig resolveDefault qPages3 _ _ rfl

/-- C5: a request whose keyword is empty after trimming (missing, empty or
whitespace-only) is rejected with the missing-keyword error and the
instrumented fetch log is empty — validation happens before any network
activity. -/
theorem C5_empty_keyword (env : JsVal → Except FetchError Doc) (cfg : Config)
    (resolve : String → String → String) (q : Query)
    (h : jsTrim (q.keyword.getD "") = "") :
    scraper env cfg resolve q = (.badRequest "Missing ?keyword=", []) :=
  scraper_of_empty_keyword h

/-- C5 witness: a whitespace-only keyword yields the missing-keyword error
and no fetch. -/
theorem C5_witness :
    scraper envStop defaultConfig resolveDefault
      { keyword := some "   ", page := none, pages := none } =
      (.badRequest "Missing ?keyword=", []) :=
  C5_empty_keyword envStop defaultConfig resolveDefault
    { keyword := some "   ", page := none, pages := none } (by decide)

/-- C6: if any issued fetch fails, the whole search surfaces the single
scrape-failure response carrying the cause's message, and in particular is
never a success — no accumulated records are returned. -/
theorem C6_fetch_failure (env : JsVal → Except FetchError Doc) (cfg : Config)
    (resolve : String → String → String) (q : Query) (res : ScraperResult)
    (log : List JsVal) (v : JsVal) (e : FetchError)
    (h : scraper env cfg resolve q = (res, log))
    (hv : v ∈ log) (he : env v = .error e) :
    res = .failure ("Scraping of " ++ cfg.scrapingUri ++ " failed.")
      (if e.message = "" then e.str else e.message) ∧
    ∀ s, res ≠ .ok s := by
  by_cases hk : jsTrim (q.keyword.getD "") = ""
  · rw [scraper_of_empty_keyword hk] at h
    injection h with h1 h2
    rw [← h2] at hv
    simp at hv
  · rw [scraper_eq_run hk] at h
    rcases hrl : runLoop env cfg resolve (clampedPage q)
        (loopFuel (clampedPages cfg q)) 0
        { output := [], hasNext := false, totalPages := none, fetched := [] }
      with ⟨st, err⟩
    cases err with
    | some e2 =>
        rw [scraperRun_of_err hrl] at h
        injection h with h1 h2
        have hmem : v ∈ (runLoop env cfg resolve (clampedPage q)
            (loopFuel (clampedPages cfg q)) 0
            { output := [], hasNext := false, totalPages := none,
              fetched := [] }).1.fetched := by
          rw [hrl]
          dsimp only
          rw [h2]
          exact hv
        rcases runLoop_error env cfg resolve (clampedPage q)
            (loopFuel (clampedPages cfg q)) 0
            { output := [], hasNext := false, totalPages := none,
              fetched := [] } v e hmem he with h3 | h3
        · rw [hrl] at h3
          dsimp only at h3
          injection h3 with h3
          subst h3
          constructor
          · exact h1.symm
          · intro s hs
            rw [← h1] at hs
            injection hs
        · simp at h3
    | none =>
        rw [scraperRun_of_ok hrl] at h
        injection h with h1 h2
        have hmem : v ∈ (runLoop env cfg resolve (clampedPage q)
            (loopFuel (clampedPages cfg q)) 0
            { output := [], hasNext := false, totalPages := none,
              fetched := [] }).1.fetched := by
          rw [hrl]
          dsimp only
          rw [h2]
          exact hv
        rcases runLoop_error env cfg resolve (clampedPage q)
            (loopFuel (clampedPages cfg q)) 0
            { output := [], hasNext := false, totalPages := none,
              fetched := [] } v e hmem he with h3 | h3
        · rw [hrl] at h3
          dsimp only at h3
          injection h3
        · simp at h3

/-- C6 witness: with every fetch failing with an HTTP 503 cause, the first
page's fetch is in the log and the response is the single scrape-failure
carrying that cause; it is not a success for any summary. -/
theorem C6_witness :
    (scraper envErr defaultConfig resolveDefault qOnePage).1 =
      .failure ("Scraping of " ++ defaultConfig.scrapingUri ++ " failed.")
        (if fetchErr503.message = "" then fetchErr503.str
          else fetchErr503.message) ∧
    ∀ s, (scraper envErr defaultConfig resolveDefault qOnePage).1 ≠ .ok s :=
  C6_fetch_failure envErr defaultConfig resolveDefault qOnePage _ _
    (some 1) fetchErr503 rfl (by decide) rfl

/-- C7 counterexample: a card whose star-icon text reads
"9.9 out of 5 stars" is emitted with rating 9.9, which is outside [0, 5]:
the code parses the leading number of the fragment without clamping it. -/
theorem C7_counterexample :
    ((parseProducts resolveDefault "https://www.amazon.com/" doc7).1.map
      Product.rating) = [some (JsNumber.num (Rat.divInt 99 10))] ∧
    ¬ ((Rat.divInt 99 10 : ℚ) ≤ 5) := by
  constructor
  · decide
  · rw [Rat.divInt_eq_div]
    norm_num

/-- C7 (amended): for every emitted record, the rating is null (no rating
text, or text not matching the `"<number> out of 5"` pattern), or NaN (an
all-dots numeric token), or the parsed leading number, which is always ≥ 0
but is not clamped to 5; parsing never throws. -/
theorem C7_rating (resolve : String → String → String) (u : String)
    (doc : Doc) (p : Product) (h : p ∈ (parseProducts resolve u doc).1) :
    p.rating = none ∨ p.rating = some JsNumber.nan ∨
      ∃ x : ℚ, p.rating = some (JsNumber.num x) ∧ 0 ≤ x := by
  obtain ⟨c, _, _, hec⟩ := mem_parseProducts h
  obtain ⟨_, _, _, _, _, hrat, _⟩ := extractCard_some_spec hec
  rw [hrat]
  exact ratingOf_cases c

/-- C7 witness: the over-range card's record satisfies the amended
trichotomy (through its third branch). -/
theorem C7_witness :
    prod7.rating = none ∨ prod7.rating = some JsNumber.nan ∨
      ∃ x : ℚ, prod7.rating = some (JsNumber.num x) ∧ 0 ≤ x :=
  C7_rating resolveDefault "https://www.amazon.com/" doc7 prod7 (by decide)

/-- C8 counterexample: when page 1 has no pagination strip but page 2 does
(last numeric page 7, pages=2), the summary's `totalPages` is
`⌈7/2⌉ = 4`, i.e. derived from the second page's document, not from the
first fetched page only (which would give `⌈0/2⌉ = 0`). -/
theorem C8_counterexample :
    (summaryOf (scraper env8 defaultConfig resolveDefault qPages2).1).map
      Summary.totalPages = some (some 4) ∧
    (scraper env8 defaultConfig resolveDefault qPages2).2 =
      [some 1, some 2] ∧
    getLastNumericPageSpan docNext = none ∧
    getLastNumericPageSpan docStrip7 = some 7 ∧
    (summaryOf (scraper env8 defaultConfig resolveDefault qPages2).1).map
        Summary.totalPages ≠
      some (jsCeilDiv (getLastNumericPageSpan docNext) (some 2)) := by
  refine ⟨by decide, by decide, rfl, rfl, by decide⟩

/-- C8 (amended): for every successfully completed search, the summary's
`totalPages` is computed from the pagination value of the first fetched
page whose strip yields one (the capture is retried while null and never
overwritten once non-null), divided by the clamped page count and rounded
up. -/
theorem C8_span_capture (env : JsVal → Except FetchError Doc) (cfg : Config)
    (resolve : String → String → String) (q : Query) (s : Summary)
    (log : List JsVal) (h : scraper env cfg resolve q = (.ok s, log)) :
    s.totalPages = jsCeilDiv (firstFetchedSpan env log) (clampedPages cfg q) :=
  scraper_ok_totalPages h

/-- C8 witness: the two-page run of the counterexample environment
instantiates the amended capture equation. -/
theorem C8_witness :
    sStrip7.totalPages =
      jsCeilDiv (firstFetchedSpan env8 [some 1, some 2])
        (clampedPages defaultConfig qPages2) :=
  C8_span_capture env8 defaultConfig resolveDefault qPages2 sStrip7
    [some 1, some 2] (by decide)

/-- C9 counterexample: with `page=abc` (non-numeric) the effective page is
NaN, not an integer ≥ 1, and the loop still issues fetches: both issued
fetches of this two-page run request page NaN. -/
theorem C9_counterexample :
    clampedPage qBadPage = none ∧
    (scraper envNext defaultConfig resolveDefault qBadPage).2 =
      [none, none] := by
  refine ⟨rfl, by decide⟩

/-- C9 (amended): when the `page` (resp. `pages`) query value parses to a
number under JavaScript `parseInt` (absent values default to "1"), the
effective page is an integer ≥ 1 and the effective page count is an integer
in [1, maxPages], provided the configured maximum is a number ≥ 1;
non-numeric values instead propagate NaN. -/
theorem C9_clamping (cfg : Config) (q : Query) (m : ℤ)
    (hm : cfg.maxPages = some m) (hm1 : 1 ≤ m) :
    (∀ n : ℤ, parseIntJS (jsOrDefault q.page "1") = some n →
        ∃ k : ℤ, clampedPage q = some k ∧ 1 ≤ k) ∧
    (∀ n : ℤ, parseIntJS (jsOrDefault q.pages "1") = some n →
        ∃ k : ℤ, clampedPages cfg q = some k ∧ 1 ≤ k ∧ k ≤ m) := by
  constructor
  · intro n hn
    refine ⟨max 1 n, ?_, le_max_left 1 n⟩
    unfold clampedPage jsMaxC
    rw [hn]
    rfl
  · intro n hn
    refine ⟨max 1 (min m n), ?_, le_max_left _ _, ?_⟩
    · unfold clampedPages jsMaxC jsMinV
      rw [hm, hn]
      rfl
    · exact max_le hm1 (min_le_left m n)

/-- C9 witness: `page=2&pages=5` against the default configuration clamps
to an in-range page and page count. -/
theorem C9_witness :
    (∃ k : ℤ, clampedPage qW9 = some k ∧ 1 ≤ k) ∧
    (∃ k : ℤ, clampedPages defaultConfig qW9 = some k ∧ 1 ≤ k ∧ k ≤ 3) :=
  ⟨(C9_clamping defaultConfig qW9 3 rfl (by norm_num)).1 2 (by decide),
   (C9_clamping defaultConfig qW9 3 rfl (by norm_num)).2 5 (by decide)⟩

/-- C10: every emitted record has a non-null, non-empty asin (the card
selector only admits non-empty `data-asin` attributes), and its detail URL
is always the canonical path synthesized from that asin; consequently the
href-resolution fallback is never exercised — extraction does not depend on
the resolver at all. -/
theorem C10_canonical_url :
    (∀ (resolve : String → String → String) (u : String) (doc : Doc)
        (p : Product), p ∈ (parseProducts resolve u doc).1 →
        ∃ a : String, a ≠ "" ∧ p.asin = some a ∧
          p.url = some (u ++ "/dp/" ++ a)) ∧
    (∀ (r1 r2 : String → String → String) (u : String) (doc : Doc),
        parseProducts r1 u doc = parseProducts r2 u doc) := by
  constructor
  · intro resolve u doc p h
    obtain ⟨c, _, hadm, hec⟩ := mem_parseProducts h
    obtain ⟨⟨a, hda, ha⟩, _⟩ := cardAdmitted_spec hadm
    obtain ⟨_, _, _, _, hasin, _, hurl⟩ := extractCard_some_spec hec
    have hassome : asinOf c = some a := by
      unfold asinOf jsOrNull jsOr
      rw [hda]
      dsimp only
      rw [if_neg ha]
    refine ⟨a, ha, ?_, ?_⟩
    · rw [hasin, hassome]
    · rw [hurl]
      unfold urlOf
      rw [hassome]
  · intro r1 r2 u doc
    unfold parseProducts
    dsimp only
    have hcg : ∀ c ∈ doc.resultItems.filter cardAdmitted,
        extractCard r1 u c = extractCard r2 u c := by
      intro c hc
      rw [List.mem_filter] at hc
      exact extractCard_resolve_indep hc.2
    rw [filterMap_congr_mem hcg]

/-- C10 witness: the concrete record's URL is the canonical detail path of
its asin, and extraction agrees for two different resolvers. -/
theorem C10_witness :
    (∃ a : String, a ≠ "" ∧ prodW.asin = some a ∧
        prodW.url = some ("https://www.amazon.com/" ++ "/dp/" ++ a)) ∧
    parseProducts resolveAlt "https://www.amazon.com/" docStop =
      parseProducts resolveDefault "https://www.amazon.com/" docStop :=
  ⟨C10_canonical_url.1 resolveDefault "https://www.amazon.com/" docStop prodW
      (by decide),
   C10_canonical_url.2 resolveAlt resolveDefault "https://www.amazon.com/"
      docStop⟩
